import Mathlib

/-!
# QuakeBot: a shallow embedding of the earthquake-alert pipeline

This file embeds the data model and operations of the QuakeBot repository
(`quake_bot.py`, `save_quake.py`, `watchdog.py`, `discord_logger.py`,
`fbPost.py`, `earthquake_bot.py`) and proves properties of the embedding.

Modelling conventions:
* Python `float`/`Decimal` quantities (magnitude, depth, latitude, longitude)
  are exact rationals `ℚ`; the pipeline only compares them against constant
  thresholds and copies them around, so no floating-point rounding is relevant
  to any property proved here.
* Python `datetime.strptime` with the two fixed formats used by the code is
  modelled character-by-character, mimicking the field regexes of CPython's
  `_strptime` (two-digit fields may also be a single digit; the year is exactly
  four digits; the whole string must be consumed) followed by the calendar
  validation performed by the `datetime` constructor.
* DynamoDB is an association list keyed by `quake_id`; the conditional
  `put_item` with `attribute_not_exists(quake_id)` is an atomic
  insert-if-absent on that list.
* Network and process effects (map render, Facebook post, Telegram post,
  nearest-city data file) are inputs of a `DispatchEnv` record; the embedded
  functions are total, mirroring the fact that the Python code catches the
  corresponding exceptions at the same boundaries.
-/

namespace QuakeBot

/-! ## Python `datetime.strptime` for the formats used by the repository -/

/-- A naive (timezone-unaware) `datetime` value as produced by
`datetime.strptime`, restricted to the fields the formats mention. -/
structure PyDateTimeNaive where
  year : Nat
  month : Nat
  day : Nat
  hour : Nat
  minute : Nat
  second : Nat
deriving DecidableEq, Repr

/-- Numeric value of a decimal digit character, `none` otherwise. -/
def digitVal (c : Char) : Option Nat :=
  if c.isDigit then some (c.toNat - 48) else none

/-- Match one strptime field that is one or two digits wide: try the
two-digit reading first (CPython's field regexes are greedy), falling back to
a single digit.  `ok2`/`ok1` are the value sets accepted by the field's regex
alternatives.  The separators of both formats are non-digits, so this
fall-back exactly reproduces the regex backtracking. -/
def matchField2 (ok2 : Nat → Bool) (ok1 : Nat → Bool) :
    List Char → Option (Nat × List Char)
  | c1 :: c2 :: rest =>
    match digitVal c1, digitVal c2 with
    | some d1, some d2 =>
      if ok2 (10 * d1 + d2) then some (10 * d1 + d2, rest)
      else if ok1 d1 then some (d1, c2 :: rest)
      else none
    | some d1, none => if ok1 d1 then some (d1, c2 :: rest) else none
    | none, _ => none
  | [c1] =>
    match digitVal c1 with
    | some d1 => if ok1 d1 then some (d1, []) else none
    | none => none
  | [] => none

/-- Match the `%Y` field: exactly four digits. -/
def matchYear4 : List Char → Option (Nat × List Char)
  | c1 :: c2 :: c3 :: c4 :: rest =>
    match digitVal c1, digitVal c2, digitVal c3, digitVal c4 with
    | some d1, some d2, some d3, some d4 =>
      some (1000 * d1 + 100 * d2 + 10 * d3 + d4, rest)
    | _, _, _, _ => none
  | _ => none

/-- Match one literal character of the format string. -/
def matchLit (c : Char) : List Char → Option (List Char)
  | x :: rest => if x = c then some rest else none
  | [] => none

/-- Field `%m` two-digit alternative: `01`–`12`. -/
def okMonth2 (n : Nat) : Bool := 1 ≤ n && n ≤ 12
/-- Field `%m` one-digit alternative: `1`–`9`. -/
def okMonth1 (n : Nat) : Bool := 1 ≤ n
/-- Field `%d` two-digit alternative: `01`–`31`. -/
def okDay2 (n : Nat) : Bool := 1 ≤ n && n ≤ 31
/-- Field `%d` one-digit alternative: `1`–`9`. -/
def okDay1 (n : Nat) : Bool := 1 ≤ n
/-- Field `%H` two-digit alternative: `00`–`23`. -/
def okHour2 (n : Nat) : Bool := n ≤ 23
/-- Field `%M` two-digit alternative: `00`–`59`. -/
def okMin2 (n : Nat) : Bool := n ≤ 59
/-- Field `%S` two-digit alternative: `00`–`61` (leap seconds are matched by the
regex and then rejected by the `datetime` constructor). -/
def okSec2 (n : Nat) : Bool := n ≤ 61
/-- One-digit alternative `\d` of `%H`, `%M`, `%S`: any digit. -/
def okAny1 (_ : Nat) : Bool := true

/-- Gregorian leap-year test. -/
def isLeapYear (y : Nat) : Bool :=
  (y % 4 == 0 && y % 100 != 0) || y % 400 == 0

/-- Days in a month, as validated by the `datetime` constructor. -/
def daysInMonth (y m : Nat) : Nat :=
  if m = 2 then (if isLeapYear y then 29 else 28)
  else if m = 4 || m = 6 || m = 9 || m = 11 then 30
  else 31

/-- The validation performed by the `datetime` constructor after the regex
match: year in `1..9999`, a real calendar date, and seconds at most 59. -/
def mkDateTime (y mo d h mi s : Nat) : Option PyDateTimeNaive :=
  if 1 ≤ y && 1 ≤ mo && mo ≤ 12 && 1 ≤ d && d ≤ daysInMonth y mo
      && h ≤ 23 && mi ≤ 59 && s ≤ 59 then
    some ⟨y, mo, d, h, mi, s⟩
  else none

/-- Model of `datetime.strptime(s, "%Y-%m-%d" ++ sep ++ "%H:%M:%S")` where `sep` is the
single literal separating the date from the time (`' '` or `'T'` in this
repository).  Returns `none` exactly when CPython raises `ValueError`. -/
def strptimeYmdHms (sep : Char) (s : String) : Option PyDateTimeNaive := do
  let cs := s.data
  let (y, cs) ← matchYear4 cs
  let cs ← matchLit '-' cs
  let (mo, cs) ← matchField2 okMonth2 okMonth1 cs
  let cs ← matchLit '-' cs
  let (d, cs) ← matchField2 okDay2 okDay1 cs
  let cs ← matchLit sep cs
  let (h, cs) ← matchField2 okHour2 okAny1 cs
  let cs ← matchLit ':' cs
  let (mi, cs) ← matchField2 okMin2 okAny1 cs
  let cs ← matchLit ':' cs
  let (sec, cs) ← matchField2 okSec2 okAny1 cs
  if cs.isEmpty then mkDateTime y mo d h mi sec else none

/-- Python `str.replace('UTC', '')`: delete non-overlapping occurrences of
`"UTC"` left to right. -/
def removeUTCChars : List Char → List Char
  | 'U' :: 'T' :: 'C' :: rest => removeUTCChars rest
  | c :: rest => c :: removeUTCChars rest
  | [] => []

/-- Whitespace as stripped by Python `str.strip()` (the characters that can
occur in this repository's inputs). -/
def isPySpace (c : Char) : Bool :=
  c = ' ' || c = '\t' || c = '\n' || c = '\r'

/-- Python `str.strip()`. -/
def stripChars (cs : List Char) : List Char :=
  ((cs.dropWhile isPySpace).reverse.dropWhile isPySpace).reverse

/-- Python `s.replace('UTC', '').strip()`, the cleaning step shared verbatim by
`save_quake_to_dynamodb` and `convert_utc_to_myanmar`. -/
def stripUTC (s : String) : String :=
  String.mk (stripChars (removeUTCChars s.data))

/-- The format loop of `save_quake_to_dynamodb`:
`possible_formats = ["%Y-%m-%d %H:%M:%S", "%Y-%m-%dT%H:%M:%S"]`, tried in
order on the cleaned string. -/
def parseQuakeTs (clean : String) : Option PyDateTimeNaive :=
  match strptimeYmdHms ' ' clean with
  | some dt => some dt
  | none => strptimeYmdHms 'T' clean

/-! ## Epoch arithmetic (for the derived ISO fields of the stored record) -/

/-- Days since 0000-03-01 of a civil date (valid for years ≥ 1), the standard
era-based day count; used to give the stored UTC/Myanmar instants an absolute
encoding. -/
def daysFromCivil (y m d : Nat) : Nat :=
  let y' := if m ≤ 2 then y - 1 else y
  let era := y' / 400
  let yoe := y' % 400
  let mp := (m + 9) % 12
  let doy := (153 * mp + 2) / 5 + d - 1
  let doe := yoe * 365 + yoe / 4 - yoe / 100 + doy
  era * 146097 + doe

/-- Seconds of a naive datetime since the era origin. -/
def epochSecs (dt : PyDateTimeNaive) : Nat :=
  daysFromCivil dt.year dt.month dt.day * 86400
    + dt.hour * 3600 + dt.minute * 60 + dt.second

/-! ## Event Store (`save_quake.py`) -/

/-- The item written by `table.put_item` in `save_quake_to_dynamodb`.  The two
ISO strings stored by the code are derived deterministically from the parsed
datetime; they are encoded here as absolute second counts (`mm_epoch_secs` is
the fixed `+6:30` = 23400 s offset applied by the code). -/
structure EventRecord where
  quake_id : String
  magnitude : ℚ
  utc_time_original_str : String
  utc_epoch_secs : Nat
  mm_epoch_secs : Nat
  depth : ℚ
  latitude : ℚ
  longitude : ℚ
  status : String
  last_updated : String
deriving DecidableEq, Repr

/-- The DynamoDB table keyed by `quake_id`. -/
abbrev Store := List (String × EventRecord)

/-- Lookup semantics of `get_item` by key: the lookup semantics of the table. -/
def storeLookup (quake_id : String) : Store → Option EventRecord
  | [] => none
  | (k, r) :: rest => if k = quake_id then some r else storeLookup quake_id rest

/-- The record assembled by `save_quake_to_dynamodb` before `put_item`. -/
def mkEventRecord (quake_id : String) (magnitude : ℚ) (utc_datetime_str : String)
    (dt : PyDateTimeNaive) (depth lat lon : ℚ) (status : String)
    (nowIso : String) : EventRecord :=
  { quake_id := quake_id
    magnitude := magnitude
    utc_time_original_str := utc_datetime_str
    utc_epoch_secs := epochSecs dt
    mm_epoch_secs := epochSecs dt + 23400
    depth := depth
    latitude := lat
    longitude := lon
    status := status
    last_updated := nowIso }

/-- Result of `save_quake_to_dynamodb`: the table afterwards, the returned
boolean, and which log line was emitted. -/
structure SaveOutcome where
  store : Store
  ok : Bool
  parseErrorLogged : Bool
  alreadyExistsWarned : Bool
deriving Repr

/-- Model of `save_quake_to_dynamodb(quake_id, magnitude, utc_datetime_str, depth, lat,
lon, status)` acting on table state `st`; `nowIso` is the wall-clock string
the code stores as `last_updated`.  Steps, in source order: clean and parse
the timestamp (unparseable ⇒ error logged, `False`, no write); then the
atomic conditional `put_item` with `attribute_not_exists(quake_id)`
(existing key ⇒ `ConditionalCheckFailedException` caught, warning logged,
`False`, no write; otherwise the item is inserted and `True` returned). -/
def save_quake_to_dynamodb (st : Store) (nowIso : String) (quake_id : String)
    (magnitude : ℚ) (utc_datetime_str : String) (depth lat lon : ℚ)
    (status : String) : SaveOutcome :=
  match parseQuakeTs (stripUTC utc_datetime_str) with
  | none =>
    { store := st, ok := false, parseErrorLogged := true,
      alreadyExistsWarned := false }
  | some dt =>
    match storeLookup quake_id st with
    | some _ =>
      { store := st, ok := false, parseErrorLogged := false,
        alreadyExistsWarned := true }
    | none =>
      { store := (quake_id,
          mkEventRecord quake_id magnitude utc_datetime_str dt depth lat lon
            status nowIso) :: st,
        ok := true, parseErrorLogged := false, alreadyExistsWarned := false }

/-! ## Substring test (Python `in` on strings) -/

/-- Does `cs` start with `pat`? -/
def startsWithChars : List Char → List Char → Bool
  | _, [] => true
  | [], _ :: _ => false
  | c :: cs, p :: ps => c = p && startsWithChars cs ps

/-- Python `needle in hay` on strings: `needle` occurs as a contiguous
substring of `hay`. -/
def strContains (hay needle : String) : Bool :=
  go hay.data needle.data
where
  go : List Char → List Char → Bool
    | [], n => n.isEmpty
    | c :: cs, n => startsWithChars (c :: cs) n || go cs n

/-! ## Classifier (`fetch_quakes_from_rss` in `quake_bot.py`) -/

/-- The three outcomes of the per-entry filter in `fetch_quakes_from_rss`:
`Ignore` = saved with status `"ignored"` and skipped; `RecordOnly` = saved
with status `"Telegram ignored"` and skipped; `Alert` = appended to
`new_quakes` for alert fan-out. -/
inductive Decision
  | Ignore
  | RecordOnly
  | Alert
deriving DecidableEq, Repr

/-- The title test of `fetch_quakes_from_rss`:
`is_myanmar = "เมียนมา" in entry.title or "Myanmar" in entry.title`. -/
def titleMentionsMyanmar (title : String) : Bool :=
  strContains title "เมียนมา" || strContains title "Myanmar"

/-- The classification performed by `fetch_quakes_from_rss`, in source order:
`mag < 2.0` ⇒ ignored; else `not is_myanmar and mag < 3.0` ⇒ record-only;
else alert.  The entry's coordinates play no part in this decision. -/
def fetchEntryDecision (mag : ℚ) (title : String) : Decision :=
  if mag < 2 then .Ignore
  else if !titleMentionsMyanmar title && mag < 3 then .RecordOnly
  else .Alert

/-- Model of `is_in_myanmar` from `earthquake_bot.py` with its `MYANMAR_BOUNDS`:
`9 ≤ lat ≤ 29` and `92 ≤ lon ≤ 101`. -/
def is_in_myanmar (lat lon : ℚ) : Bool :=
  decide (9 ≤ lat) && decide (lat ≤ 29) && decide (92 ≤ lon)
    && decide (lon ≤ 101)

/-- The claimed reference classifier: region of interest = bounding box OR
title keyword, then the ordered magnitude rules. -/
def classifyClaimRef (mag lat lon : ℚ) (title : String) : Decision :=
  let roi := is_in_myanmar lat lon || titleMentionsMyanmar title
  if mag < 2 then .Ignore
  else if !roi && mag < 3 then .RecordOnly
  else .Alert

/-- The amended reference classifier: region of interest = title keyword
match only (the coordinates are not consulted), then the ordered magnitude
rules. -/
def classifyAmendedRef (mag : ℚ) (title : String) : Decision :=
  let roi := titleMentionsMyanmar title
  if mag < 2 then .Ignore
  else if !roi && mag < 3 then .RecordOnly
  else .Alert

/-! ## Burmese rendering and `convert_utc_to_myanmar` (`quake_bot.py`) -/

/-- Table `BURMESE_DIGITS` indexing: map an ASCII digit to its Burmese digit, leave
any other character unchanged. -/
def burmeseDigitChar (c : Char) : Char :=
  if c = '0' then '၀' else if c = '1' then '၁' else if c = '2' then '၂'
  else if c = '3' then '၃' else if c = '4' then '၄' else if c = '5' then '၅'
  else if c = '6' then '၆' else if c = '7' then '၇' else if c = '8' then '၈'
  else if c = '9' then '၉' else c

/-- Model of `burmese_number` applied to an already-stringified value. -/
def burmese_number (s : String) : String :=
  String.mk (s.data.map burmeseDigitChar)

/-- Zero-padded two-digit rendering, as `strftime("%M")`/`("%S")` produce. -/
def pad2 (n : Nat) : String :=
  if n < 10 then "0" ++ toString n else toString n

/-- The time-of-day word chosen from the 24-hour Myanmar hour. -/
def todWord (hour24 : Nat) : String :=
  if 1 ≤ hour24 && hour24 ≤ 10 then "မနက်"
  else if 11 ≤ hour24 && hour24 ≤ 15 then "နေ့လည်"
  else if 16 ≤ hour24 && hour24 ≤ 18 then "ညနေ"
  else "ည"

/-- The `time_clocks` emoji table indexed by the 12-hour hour (default
`"🕓"`, though every key 1–12 is present). -/
def clockEmoji (hour12 : Nat) : String :=
  if hour12 = 1 then "🕐" else if hour12 = 2 then "🕑"
  else if hour12 = 3 then "🕒" else if hour12 = 4 then "🕓"
  else if hour12 = 5 then "🕔" else if hour12 = 6 then "🕕"
  else if hour12 = 7 then "🕖" else if hour12 = 8 then "🕗"
  else if hour12 = 9 then "🕘" else if hour12 = 10 then "🕙"
  else if hour12 = 11 then "🕚" else if hour12 = 12 then "🕛"
  else "🕓"

/-- Model of `convert_utc_to_myanmar`: clean the string, parse it with the single
format `"%Y-%m-%d %H:%M:%S"`, add the fixed `+6:30` offset, and render the
Burmese caption line; an unparseable input logs an error and returns `None`
(no exception escapes). -/
def convert_utc_to_myanmar (utc_str : String) : Option String :=
  match strptimeYmdHms ' ' (stripUTC utc_str) with
  | none => none
  | some dt =>
    let totalMin := dt.hour * 60 + dt.minute + 390
    let hour24 := (totalMin / 60) % 24
    let minute := totalMin % 60
    let tod := todWord hour24
    let hour12 := if hour24 % 12 = 0 then 12 else hour24 % 12
    let clock := clockEmoji hour12
    some (clock ++ " " ++ tod ++ " " ++ burmese_number (toString hour12)
      ++ "နာရီ " ++ burmese_number (pad2 minute) ++ "မိနစ် "
      ++ burmese_number (pad2 dt.second) ++ "စက္ကန့်")

/-! ## Quake records and the Facebook poster (`fbPost.py`) -/

/-- The per-quake dict appended to `new_quakes` by `fetch_quakes_from_rss`. -/
structure Quake where
  id : String
  lat : ℚ
  lon : ℚ
  mag : ℚ
  depth : ℚ
  date : String
  link : String
deriving DecidableEq, Repr

/-- The HTTP outcome of the Graph-API request inside
`post_image_to_facebook`: a JSON body with an `id` field, a body without one
(API error), or an exception during the upload. -/
inductive FbNetwork
  | httpId (full_id : String)
  | httpError
  | raised
deriving DecidableEq, Repr

/-- Python `str.split(sep)` for a one-character separator. -/
def splitOnChar (sep : Char) : List Char → List (List Char)
  | [] => [[]]
  | c :: rest =>
    let r := splitOnChar sep rest
    if c = sep then [] :: r
    else
      match r with
      | h :: t => (c :: h) :: t
      | [] => [[c]]

/-- Python `full_id.split("_")` unpacked into exactly two names; three or more
parts make the unpacking raise (caught by the enclosing handler), no
underscore takes the fallback branch. -/
def splitUnderscore (full_id : String) : Option (String × String) :=
  match splitOnChar '_' full_id.data with
  | [p, q] => some (String.mk p, String.mk q)
  | _ => none

/-- Model of `post_image_to_facebook(image_path, caption)`: `None, None` when the page
credentials are missing, when the image file does not exist, when the API
response has no `id`, or when any exception occurs (including a multi-part
`id` failing tuple unpacking); otherwise the `(page_id, post_id)` pair,
splitting a `page_underscore_post` compound id or falling back to the
configured page id. -/
def post_image_to_facebook (creds : Option (String × String))
    (imageExists : Bool) (net : FbNetwork) : Option (String × String) :=
  match creds with
  | none => none
  | some (fbPageId, _token) =>
    if !imageExists then none
    else
      match net with
      | .httpId full_id =>
        if strContains full_id "_" then splitUnderscore full_id
        else some (fbPageId, full_id)
      | .httpError => none
      | .raised => none

/-- Python truthiness of the `(page_id, post_id)` result as tested by
`send_alert`'s `if not page_id or not post_id`: `None` components and empty
strings are falsy. -/
def fbRefMissing : Option (String × String) → Bool
  | none => true
  | some (p, q) => p.isEmpty || q.isEmpty

/-! ## Alert dispatch (`send_alert` in `quake_bot.py`) -/

/-- Result of `find_nearest_city`  as consumed by `send_alert` (the city list
is an external data file; the lookup is pure given that file). -/
structure NearestCity where
  city_mm : String
  distance : Nat
deriving DecidableEq, Repr

/-- External effects available to one `send_alert` call: whether
`generate_map` succeeds in writing the output file, the Facebook
credentials/network outcome, whether `bot.send_photo` succeeds, and the
nearest-city lookup result. -/
structure DispatchEnv where
  renderOk : Bool
  fbCreds : Option (String × String)
  fbNet : FbNetwork
  tgOk : Bool
  nearest : Option NearestCity
deriving DecidableEq, Repr

/-- The arguments interpolated by `build_facebook_caption` (the Python
function formats exactly these values into one string; `mm_time = None` is
interpolated as the text `None`). -/
structure FbCaption where
  fbemoji : String
  mag : ℚ
  city_mm : String
  distance_miles : String
  mm_time : Option String
  depth_km : ℚ
  lat : ℚ
  lon : ℚ
  link : String
deriving DecidableEq, Repr

/-- Model of `build_facebook_caption`. -/
def build_facebook_caption (fbemoji : String) (mag : ℚ) (city_mm : String)
    (distance_miles : String) (mm_time : Option String) (depth_km lat lon : ℚ)
    (link : String) : FbCaption :=
  ⟨fbemoji, mag, city_mm, distance_miles, mm_time, depth_km, lat, lon, link⟩

/-- The values interpolated into the Telegram caption. -/
structure TgCaption where
  emoji : String
  mag : ℚ
  city_mm : String
  distance_miles : String
  mm_time : Option String
  fb_post_url : String
deriving DecidableEq, Repr

/-- The severity emoji ladder of `send_alert`. -/
def severityEmoji (mag : ℚ) : String :=
  if 6 ≤ mag then "🔴🚨" else if 5 ≤ mag then "🟠⚠️"
  else if 4 ≤ mag then "🟡" else "🟢"

/-- Everything one `send_alert` call did: which channel steps ran, what was
posted, and which log lines were emitted.  The function is total — the code
catches exceptions at the same boundaries the model absorbs them. -/
structure DispatchResult where
  mm_time : Option String
  fileAfter : Bool
  mapMissingLogged : Bool
  fbAttempted : Bool
  fbCaption : Option FbCaption
  fbPostUrl : Option String
  fbFailLogged : Bool
  tgSkippedLowMag : Bool
  tgAttempted : Bool
  tgCaption : Option TgCaption
  tgSent : Bool
  tgErrorLogged : Bool
deriving DecidableEq, Repr

/-- The dispatch result shared by every abort path of `send_alert` before the
Telegram step. -/
def dispatchStopped (mm_time : Option String) (fileAfter : Bool)
    (mapMissingLogged fbAttempted : Bool) (fbCaption : Option FbCaption)
    (fbPostUrl : Option String) (fbFailLogged tgSkippedLowMag : Bool) :
    DispatchResult :=
  { mm_time := mm_time, fileAfter := fileAfter,
    mapMissingLogged := mapMissingLogged, fbAttempted := fbAttempted,
    fbCaption := fbCaption, fbPostUrl := fbPostUrl,
    fbFailLogged := fbFailLogged, tgSkippedLowMag := tgSkippedLowMag,
    tgAttempted := false, tgCaption := none, tgSent := false,
    tgErrorLogged := false }

/-- Model of `send_alert(bot, quake)` acting on filesystem state `fileBefore` (whether
`quake_map.png` already exists from an earlier dispatch).  In source order:
convert the origin time, look up the nearest city, render the map
(`generate_map` catches its own errors; success writes the file, failure
leaves the filesystem unchanged), abort if the file is missing; build the
Facebook caption and post; abort if no page/post reference was obtained;
skip Telegram when `mag < 3.0`; otherwise post to Telegram, catching
`TelegramError`. -/
def send_alert (q : Quake) (env : DispatchEnv) (fileBefore : Bool) :
    DispatchResult :=
  let mm_time := convert_utc_to_myanmar q.date
  let city_mm := match env.nearest with
    | some n => n.city_mm
    | none => "မသိရ"
  let distance_miles := match env.nearest with
    | some n => burmese_number (toString n.distance)
    | none => "?"
  let fbemoji := if 4 ≤ q.mag then "🚨" else "⚠️"
  let fileAfter := env.renderOk || fileBefore
  if !fileAfter then
    dispatchStopped mm_time fileAfter true false none none false false
  else
    let caption := build_facebook_caption fbemoji q.mag city_mm distance_miles
      mm_time q.depth q.lat q.lon q.link
    let fbRes := post_image_to_facebook env.fbCreds fileAfter env.fbNet
    if fbRefMissing fbRes then
      dispatchStopped mm_time fileAfter false true (some caption) none true
        false
    else
      match fbRes with
      | none =>
        dispatchStopped mm_time fileAfter false true (some caption) none true
          false
      | some (page_id, post_id) =>
        let url := "https://www.facebook.com/" ++ page_id ++ "/posts/"
          ++ post_id
        if q.mag < 3 then
          dispatchStopped mm_time fileAfter false true (some caption)
            (some url) false true
        else
          { mm_time := mm_time, fileAfter := fileAfter,
            mapMissingLogged := false, fbAttempted := true,
            fbCaption := some caption, fbPostUrl := some url,
            fbFailLogged := false, tgSkippedLowMag := false,
            tgAttempted := true,
            tgCaption := some ⟨severityEmoji q.mag, q.mag, city_mm,
              distance_miles, mm_time, url⟩,
            tgSent := env.tgOk, tgErrorLogged := !env.tgOk }

/-! ## The monitor loop (`monitor_loop` in `quake_bot.py`) -/

/-- One quake taken up by the monitor loop, with the wall-clock string that
becomes `last_updated` and the external-effect outcomes of its dispatch. -/
structure QuakeItem where
  q : Quake
  now : String
  env : DispatchEnv
deriving Repr

/-- What one iteration of the `for quake in new_quakes` body did. -/
structure StepResult where
  store : Store
  file : Bool
  saved : Bool
  dispatch : Option DispatchResult
deriving Repr

/-- One iteration of the monitor loop body: `saved =
save_quake_to_dynamodb(id, mag, date, depth, lat, lon, "Alerted")`, and
`send_alert` is awaited exactly when `saved` is true. -/
def monitorStep (st : Store) (file : Bool) (item : QuakeItem) : StepResult :=
  let r := save_quake_to_dynamodb st item.now item.q.id item.q.mag
    item.q.date item.q.depth item.q.lat item.q.lon "Alerted"
  if r.ok then
    let d := send_alert item.q item.env file
    { store := r.store, file := d.fileAfter, saved := true,
      dispatch := some d }
  else
    { store := r.store, file := file, saved := false, dispatch := none }

/-- Accumulated outcome of processing a list of quakes (and further below, of
whole cycles): final table, final filesystem state, and the event ids for
which alert fan-out was invoked, in order. -/
structure RunOut where
  store : Store
  file : Bool
  alerted : List String
deriving Repr

/-- The `for quake in new_quakes` loop of one cycle. -/
def processQuakes (st : Store) (file : Bool) : List QuakeItem → RunOut
  | [] => { store := st, file := file, alerted := [] }
  | item :: rest =>
    let r := monitorStep st file item
    let out := processQuakes r.store r.file rest
    { out with alerted := (if r.saved then [item.q.id] else []) ++ out.alerted }

/-- One full poll cycle: process the fetched quakes, then
`write_status("healthy")` — the heartbeat write is unconditional. -/
structure CycleResult where
  store : Store
  file : Bool
  alerted : List String
  heartbeatWritten : Bool
deriving Repr

/-- One iteration of `while True` in `monitor_loop`. -/
def runCycle (st : Store) (file : Bool) (items : List QuakeItem) :
    CycleResult :=
  let out := processQuakes st file items
  { store := out.store, file := out.file, alerted := out.alerted,
    heartbeatWritten := true }

/-- A whole run of the pipeline: a list of cycles, each handing its table and
filesystem state to the next.  A process restart preserves the DynamoDB
table, so a run interrupted by restarts is the same fold from the persisted
store — the theorems below quantify over every initial store and cycle list
and therefore cover restarts. -/
def pipelineRun (st : Store) (file : Bool) : List (List QuakeItem) → RunOut
  | [] => { store := st, file := file, alerted := [] }
  | c :: rest =>
    let r := runCycle st file c
    let out := pipelineRun r.store r.file rest
    { out with alerted := r.alerted ++ out.alerted }

/-! ## Heartbeat and watchdog (`write_status`, `watchdog.py`) -/

/-- The timestamp string inside `status.json`, abstractly: the instant it
denotes and whether the ISO text carries a UTC-offset suffix.
`datetime.now(timezone.utc).isoformat()` always emits `+00:00`. -/
structure IsoTimeText where
  epoch : Int
  hasOffsetSuffix : Bool
deriving DecidableEq, Repr

/-- The single JSON object in `status.json`. -/
structure StatusData where
  status : String
  time : IsoTimeText
deriving DecidableEq, Repr

/-- Model of `write_status(status)`: overwrite `status.json` with the given status and
the offset-aware current UTC time. -/
def write_status (status : String) (nowEpoch : Int) : StatusData :=
  { status := status, time := { epoch := nowEpoch, hasOffsetSuffix := true } }

/-- A Python `datetime` value: the instant plus whether it is
timezone-aware. -/
structure PyDateTime where
  epoch : Int
  aware : Bool
deriving DecidableEq, Repr

/-- Model of `datetime.fromisoformat`: aware exactly when the text carries an offset
suffix. -/
def fromisoformat (t : IsoTimeText) : PyDateTime :=
  { epoch := t.epoch, aware := t.hasOffsetSuffix }

/-- Model of `datetime.utcnow()`: the current time as a naive datetime. -/
def utcnow (nowEpoch : Int) : PyDateTime := { epoch := nowEpoch, aware := false }

/-- Python `(a - b).total_seconds()`: subtracting a naive and an aware `datetime`
raises `TypeError`. -/
def pyDateTimeSub (a b : PyDateTime) : Except Unit Int :=
  if a.aware = b.aware then .ok (a.epoch - b.epoch) else .error ()

/-- What `check_status` reports when it returns. -/
inductive CheckOutcome
  | missingFile
  | stale (staleSeconds : Int)
  | healthy
deriving DecidableEq, Repr

/-- Constant `THRESHOLD_SECONDS` in `watchdog.py`. -/
def THRESHOLD_SECONDS : Int := 90

/-- Model of `check_status()` of `watchdog.py`: missing file ⇒ unhealthy message;
otherwise `delta = (datetime.utcnow() - fromisoformat(data["time"]))
.total_seconds()`, unhealthy naming the staleness when
`delta > THRESHOLD_SECONDS`, else healthy.  `Except.error` is an uncaught
Python exception escaping `check_status`. -/
def check_status (statusFile : Option StatusData) (nowEpoch : Int) :
    Except Unit CheckOutcome :=
  match statusFile with
  | none => .ok .missingFile
  | some data =>
    match pyDateTimeSub (utcnow nowEpoch) (fromisoformat data.time) with
    | .error e => .error e
    | .ok delta =>
      if THRESHOLD_SECONDS < delta then .ok (.stale delta) else .ok .healthy

/-! ## Discord log forwarding (`discord_logger.py`) -/

/-- Truthiness of a Python tuple: a tuple is truthy iff it is nonempty —
regardless of its elements. -/
def pyTupleTruthy (elems : List Bool) : Bool := !elems.isEmpty

/-- What `DiscordLogHandler.emit` does with one record. -/
inductive EmitAction
  | suppressed
  | posted (content : String)
deriving DecidableEq, Repr

/-- Constant `logging.ERROR`. -/
def ERROR_LEVEL : Nat := 40

/-- Model of `DiscordLogHandler.emit(record)`: the guard is the *tuple*
`("No earthquake detected" in log_entry, "Skipping alerts." in log_entry)` —
the code tests the truthiness of that two-element tuple, not the disjunction
of its elements; when the guard is falsy, ERROR-level records are forwarded
with the operator mention and tag, others with a `[LOG]` marker. -/
def discordEmit (levelno : Nat) (log_entry : String) : EmitAction :=
  if pyTupleTruthy [strContains log_entry "No earthquake detected",
      strContains log_entry "Skipping alerts."] then
    .suppressed
  else if ERROR_LEVEL ≤ levelno then
    .posted ("<@squishvocado>\n**[ERROR]**\n" ++ log_entry)
  else
    .posted ("[LOG] " ++ log_entry)

/-- The suppression rule as the spec states it: drop exactly the records
containing one of the configured noisy substrings. -/
def specNoisyDrop (log_entry : String) : Bool :=
  strContains log_entry "No earthquake detected"
    || strContains log_entry "Skipping alerts."

/-! ## Top level (`if __name__ == '__main__'` in `quake_bot.py`) -/

/-- The outcome of one poll cycle as seen by the top-level runner: it either
completes or lets an unhandled exception escape. -/
inductive CycleOutcome
  | ok
  | raised (msg : String)
deriving DecidableEq, Repr

/-- What the `__main__` block did by the time the process ended. -/
structure MainResult where
  cyclesExecuted : Nat
  exceptionCaughtAtTopLevel : Bool
  errorArtifactWritten : Bool
  loopClosed : Bool
deriving DecidableEq, Repr

/-- Run `monitor_loop`'s cycles until the first unhandled exception (the loop
body has no per-cycle handler): the number of cycles entered and the escaped
exception, if any.  The remaining scheduled cycles after an exception are
never entered. -/
def runUntilException : List CycleOutcome → Nat × Option String
  | [] => (0, none)
  | .ok :: rest =>
    let (n, e) := runUntilException rest
    (n + 1, e)
  | .raised m :: _ => (1, some m)

/-- The `__main__` block: `loop.run_until_complete(monitor_loop())` inside
`try/except Exception` — an escaping exception is logged as critical and
written to `latest_error.log`, then control reaches `finally: loop.close()`
and the script ends; nothing re-enters `monitor_loop`. -/
def pyMain (cycles : List CycleOutcome) : MainResult :=
  let (n, exc) := runUntilException cycles
  match exc with
  | some _ =>
    { cyclesExecuted := n, exceptionCaughtAtTopLevel := true,
      errorArtifactWritten := true, loopClosed := true }
  | none =>
    { cyclesExecuted := n, exceptionCaughtAtTopLevel := false,
      errorArtifactWritten := false, loopClosed := true }

/-! ## Store and dedup lemmas -/

theorem save_not_ok_store (st : Store) (nowIso quake_id : String) (mag : ℚ)
    (ts : String) (dep la lo : ℚ) (s : String)
    (h : (save_quake_to_dynamodb st nowIso quake_id mag ts dep la lo s).ok = false) :
    (save_quake_to_dynamodb st nowIso quake_id mag ts dep la lo s).store = st := by
  unfold save_quake_to_dynamodb at *
  cases hp : parseQuakeTs (stripUTC ts) with
  | none => simp [hp]
  | some dt =>
    cases hl : storeLookup quake_id st with
    | none => simp [hp, hl] at h
    | some r => simp [hp, hl]

theorem save_ok_lookup_none (st : Store) (nowIso quake_id : String) (mag : ℚ)
    (ts : String) (dep la lo : ℚ) (s : String)
    (h : (save_quake_to_dynamodb st nowIso quake_id mag ts dep la lo s).ok = true) :
    storeLookup quake_id st = none := by
  unfold save_quake_to_dynamodb at h
  cases hp : parseQuakeTs (stripUTC ts) with
  | none => simp [hp] at h
  | some dt =>
    cases hl : storeLookup quake_id st with
    | none => rfl
    | some r => simp [hp, hl] at h

theorem save_ok_mem (st : Store) (nowIso quake_id : String) (mag : ℚ)
    (ts : String) (dep la lo : ℚ) (s : String)
    (h : (save_quake_to_dynamodb st nowIso quake_id mag ts dep la lo s).ok = true) :
    (storeLookup quake_id (save_quake_to_dynamodb st nowIso quake_id mag ts dep la lo s).store).isSome = true := by
  unfold save_quake_to_dynamodb at *
  cases hp : parseQuakeTs (stripUTC ts) with
  | none => simp [hp] at h
  | some dt =>
    cases hl : storeLookup quake_id st with
    | none => simp [hp, hl, storeLookup]
    | some r => simp [hp, hl] at h

theorem save_preserves_lookup (st : Store) (nowIso quake_id : String) (mag : ℚ)
    (ts : String) (dep la lo : ℚ) (s x : String)
    (h : (storeLookup x st).isSome = true) :
    (storeLookup x (save_quake_to_dynamodb st nowIso quake_id mag ts dep la lo s).store).isSome = true := by
  unfold save_quake_to_dynamodb
  cases hp : parseQuakeTs (stripUTC ts) with
  | none => simpa using h
  | some dt =>
    cases hl : storeLookup quake_id st with
    | none =>
      simp only [storeLookup]
      split
      · simp
      · simpa using h
    | some r => simpa using h

theorem save_present_not_ok (st : Store) (nowIso quake_id : String) (mag : ℚ)
    (ts : String) (dep la lo : ℚ) (s : String)
    (h : (storeLookup quake_id st).isSome = true) :
    (save_quake_to_dynamodb st nowIso quake_id mag ts dep la lo s).ok = false := by
  unfold save_quake_to_dynamodb
  cases hp : parseQuakeTs (stripUTC ts) with
  | none => simp
  | some dt =>
    cases hl : storeLookup quake_id st with
    | none => simp [hl] at h
    | some r => simp [hl]

theorem monitorStep_saved_ok (st : Store) (f : Bool) (item : QuakeItem) :
    (monitorStep st f item).saved =
      (save_quake_to_dynamodb st item.now item.q.id item.q.mag item.q.date
        item.q.depth item.q.lat item.q.lon "Alerted").ok := by
  unfold monitorStep
  by_cases h : (save_quake_to_dynamodb st item.now item.q.id item.q.mag
      item.q.date item.q.depth item.q.lat item.q.lon "Alerted").ok = true
  · simp [h]
  · simp only [Bool.not_eq_true] at h
    simp [h]

theorem monitorStep_store (st : Store) (f : Bool) (item : QuakeItem) :
    (monitorStep st f item).store =
      (save_quake_to_dynamodb st item.now item.q.id item.q.mag item.q.date
        item.q.depth item.q.lat item.q.lon "Alerted").store := by
  unfold monitorStep
  by_cases h : (save_quake_to_dynamodb st item.now item.q.id item.q.mag
      item.q.date item.q.depth item.q.lat item.q.lon "Alerted").ok = true
  · simp [h]
  · simp only [Bool.not_eq_true] at h
    simp [h]

/-- The facts about one loop iteration that drive the dedup argument. -/
theorem monitorStep_cases (st : Store) (f : Bool) (item : QuakeItem) :
    (((monitorStep st f item).saved = false ∧
        (monitorStep st f item).store = st) ∨
      ((monitorStep st f item).saved = true ∧
        storeLookup item.q.id st = none ∧
        (storeLookup item.q.id (monitorStep st f item).store).isSome = true)) ∧
    (∀ x, (storeLookup x st).isSome = true →
      (storeLookup x (monitorStep st f item).store).isSome = true) := by
  have hsaved := monitorStep_saved_ok st f item
  have hstore := monitorStep_store st f item
  constructor
  · by_cases h : (save_quake_to_dynamodb st item.now item.q.id item.q.mag
        item.q.date item.q.depth item.q.lat item.q.lon "Alerted").ok = true
    · right
      exact ⟨by rw [hsaved, h], save_ok_lookup_none _ _ _ _ _ _ _ _ _ h,
        by rw [hstore]; exact save_ok_mem _ _ _ _ _ _ _ _ _ h⟩
    · left
      simp only [Bool.not_eq_true] at h
      exact ⟨by rw [hsaved, h],
        by rw [hstore]; exact save_not_ok_store _ _ _ _ _ _ _ _ _ h⟩
  · intro x hx
    rw [hstore]
    exact save_preserves_lookup _ _ _ _ _ _ _ _ _ _ hx

theorem processQuakes_spec (x : String) (items : List QuakeItem) (st : Store)
    (f : Bool) :
    ((storeLookup x st).isSome = true →
      (processQuakes st f items).alerted.count x = 0 ∧
      (storeLookup x (processQuakes st f items).store).isSome = true) ∧
    (processQuakes st f items).alerted.count x ≤ 1 ∧
    ((processQuakes st f items).alerted.count x = 1 →
      (storeLookup x (processQuakes st f items).store).isSome = true) := by
  induction items generalizing st f with
  | nil => simp [processQuakes]
  | cons item rest ih =>
    simp only [processQuakes, List.count_append]
    obtain ⟨hcases, hpres⟩ := monitorStep_cases st f item
    obtain ⟨ih1, ih2, ih3⟩ :=
      ih (monitorStep st f item).store (monitorStep st f item).file
    rcases hcases with ⟨hsv, hsame⟩ | ⟨hsv, habs, hmem⟩
    · -- save failed: nothing alerted here, store unchanged
      rw [hsv]
      refine ⟨?_, ?_, ?_⟩
      · intro hp
        have := ih1 (by rw [hsame]; exact hp)
        simpa using this
      · simpa using ih2
      · intro hc
        simp at hc
        exact ih3 hc
    · -- save succeeded for item.q.id
      rw [hsv]
      by_cases hx : x = item.q.id
      · subst hx
        have h0 := ih1 hmem
        refine ⟨?_, ?_, ?_⟩
        · intro hp
          rw [habs] at hp
          simp at hp
        · simp [h0.1]
        · intro _
          exact h0.2
      · have hcnt : List.count x [item.q.id] = 0 := by
          simp [List.count_singleton', hx]
        refine ⟨?_, ?_, ?_⟩
        · intro hp
          have := ih1 (hpres x hp)
          simp [hcnt, this.1, this.2]
        · simp only [if_true]
          omega
        · intro hc
          simp only [if_true, hcnt] at hc
          exact ih3 (by omega)

theorem pipelineRun_spec (x : String) (cycles : List (List QuakeItem))
    (st : Store) (f : Bool) :
    ((storeLookup x st).isSome = true →
      (pipelineRun st f cycles).alerted.count x = 0 ∧
      (storeLookup x (pipelineRun st f cycles).store).isSome = true) ∧
    (pipelineRun st f cycles).alerted.count x ≤ 1 ∧
    ((pipelineRun st f cycles).alerted.count x = 1 →
      (storeLookup x (pipelineRun st f cycles).store).isSome = true) := by
  induction cycles generalizing st f with
  | nil => simp [pipelineRun]
  | cons c rest ih =>
    simp only [pipelineRun, runCycle, List.count_append]
    obtain ⟨pq1, pq2, pq3⟩ := processQuakes_spec x c st f
    obtain ⟨ih1, ih2, ih3⟩ :=
      ih (processQuakes st f c).store (processQuakes st f c).file
    refine ⟨?_, ?_, ?_⟩
    · intro hp
      have h1 := pq1 hp
      have h2 := ih1 h1.2
      simp [h1.1, h2.1, h2.2]
    · by_cases hc : (processQuakes st f c).alerted.count x = 1
      · have := ih1 (pq3 hc)
        omega
      · have := pq2
        omega
    · intro hc
      by_cases h1 : (processQuakes st f c).alerted.count x = 1
      · have := ih1 (pq3 h1)
        exact this.2
      · have hz : (processQuakes st f c).alerted.count x = 0 := by omega
        rw [hz] at hc
        exact ih3 (by omega)

/-- C1: across a whole pipeline run — any number of cycles from any initial
table state, hence also across process restarts — alert fan-out is invoked
at most once per event identifier, and it is invoked exactly when the
store's conditional insert returned success. -/
theorem alert_fanout_at_most_once :
    (∀ st f item, ((monitorStep st f item).dispatch).isSome =
      (save_quake_to_dynamodb st item.now item.q.id item.q.mag item.q.date
        item.q.depth item.q.lat item.q.lon "Alerted").ok) ∧
    (∀ st f cycles x, (pipelineRun st f cycles).alerted.count x ≤ 1) := by
  constructor
  · intro st f item
    unfold monitorStep
    by_cases h : (save_quake_to_dynamodb st item.now item.q.id item.q.mag
        item.q.date item.q.depth item.q.lat item.q.lon "Alerted").ok = true
    · simp [h]
    · simp only [Bool.not_eq_true] at h
      simp [h]
  · intro st f cycles x
    exact (pipelineRun_spec x cycles st f).2.1

/-! ## Claim theorems -/

/-- The rational 5.5, written as an explicit fraction so that concrete
evaluation reduces in the kernel. -/
def ratFiveAndHalf : ℚ := ⟨11, 2, by norm_num, by norm_num⟩

/-- The rational 2.5. -/
def ratTwoAndHalf : ℚ := ⟨5, 2, by norm_num, by norm_num⟩

/-- The rational 4.5. -/
def ratFourAndHalf : ℚ := ⟨9, 2, by norm_num, by norm_num⟩

theorem storeLookup_none_count (k : String) (st : Store)
    (h : storeLookup k st = none) : (st.map Prod.fst).count k = 0 := by
  induction st with
  | nil => simp
  | cons p rest ih =>
    simp only [storeLookup] at h
    by_cases hk : p.1 = k
    · simp [hk] at h
    · simp only [hk, if_false] at h
      simp [List.count_cons, ih h, hk]

/-- First call of the C2 counterexample: id `"E1"`, unparseable timestamp. -/
def c2FirstCall : SaveOutcome :=
  save_quake_to_dynamodb [] "2025-04-25T00:00:00+00:00" "E1" ratFiveAndHalf
    "garbage time" 10 16 96 "Alerted"

/-- Second call of the C2 counterexample: same id, parseable timestamp. -/
def c2SecondCall : SaveOutcome :=
  save_quake_to_dynamodb c2FirstCall.store "2025-04-25T00:05:00+00:00" "E1"
    ratFiveAndHalf "2025-04-25 12:05:00" 12 17 96 "Alerted"

/-- C2 is false as stated for arbitrary records: when the first call's
timestamp is unparseable, the first call stores nothing, and the second call
with the same id returns `True` — not `False` — and the single stored record
is the second call's, not the first's. -/
theorem c2_counterexample :
    c2FirstCall.ok = false ∧ c2FirstCall.store = [] ∧
    c2SecondCall.ok = true ∧
    c2SecondCall.store.map Prod.fst = ["E1"] ∧
    (storeLookup "E1" c2SecondCall.store).map
      (fun r => r.utc_time_original_str) = some "2025-04-25 12:05:00" := by
  decide

/-- C2 (amended): provided the first call's origin timestamp parses, two
calls of the insert-if-absent operation with the same event id leave exactly
one stored record — the one from the first call, unchanged — and the second
call returns `False` without overwriting. -/
theorem insert_if_absent_idempotent (st : Store) (now1 now2 quake_id : String)
    (m1 : ℚ) (ts1 : String) (d1 la1 lo1 : ℚ) (s1 : String) (m2 : ℚ)
    (ts2 : String) (d2 la2 lo2 : ℚ) (s2 : String) (dt : PyDateTimeNaive)
    (habs : storeLookup quake_id st = none)
    (hparse : parseQuakeTs (stripUTC ts1) = some dt) :
    (save_quake_to_dynamodb st now1 quake_id m1 ts1 d1 la1 lo1 s1).ok = true ∧
    (save_quake_to_dynamodb
      (save_quake_to_dynamodb st now1 quake_id m1 ts1 d1 la1 lo1 s1).store
      now2 quake_id m2 ts2 d2 la2 lo2 s2).ok = false ∧
    (save_quake_to_dynamodb
      (save_quake_to_dynamodb st now1 quake_id m1 ts1 d1 la1 lo1 s1).store
      now2 quake_id m2 ts2 d2 la2 lo2 s2).store =
      (save_quake_to_dynamodb st now1 quake_id m1 ts1 d1 la1 lo1 s1).store ∧
    storeLookup quake_id
      (save_quake_to_dynamodb
        (save_quake_to_dynamodb st now1 quake_id m1 ts1 d1 la1 lo1 s1).store
        now2 quake_id m2 ts2 d2 la2 lo2 s2).store =
      some (mkEventRecord quake_id m1 ts1 dt d1 la1 lo1 s1 now1) ∧
    ((save_quake_to_dynamodb
        (save_quake_to_dynamodb st now1 quake_id m1 ts1 d1 la1 lo1 s1).store
        now2 quake_id m2 ts2 d2 la2 lo2 s2).store.map Prod.fst).count
      quake_id = 1 := by
  have h1 : save_quake_to_dynamodb st now1 quake_id m1 ts1 d1 la1 lo1 s1 =
      { store := (quake_id,
          mkEventRecord quake_id m1 ts1 dt d1 la1 lo1 s1 now1) :: st,
        ok := true, parseErrorLogged := false,
        alreadyExistsWarned := false } := by
    unfold save_quake_to_dynamodb
    rw [hparse, habs]
  rw [h1]
  have hl : storeLookup quake_id
      ((quake_id, mkEventRecord quake_id m1 ts1 dt d1 la1 lo1 s1 now1) :: st) =
      some (mkEventRecord quake_id m1 ts1 dt d1 la1 lo1 s1 now1) := by
    simp [storeLookup]
  have h2 : save_quake_to_dynamodb
      ((quake_id, mkEventRecord quake_id m1 ts1 dt d1 la1 lo1 s1 now1) :: st)
      now2 quake_id m2 ts2 d2 la2 lo2 s2 =
      { store := (quake_id,
          mkEventRecord quake_id m1 ts1 dt d1 la1 lo1 s1 now1) :: st,
        ok := false,
        parseErrorLogged := (parseQuakeTs (stripUTC ts2)).isNone,
        alreadyExistsWarned := (parseQuakeTs (stripUTC ts2)).isSome } := by
    unfold save_quake_to_dynamodb
    cases hp : parseQuakeTs (stripUTC ts2) with
    | none => simp
    | some dt2 => simp [hl]
  rw [h2]
  refine ⟨rfl, rfl, rfl, hl, ?_⟩
  simp [List.count_cons, storeLookup_none_count quake_id st habs]

/-- Witness for the amended C2 at a concrete input. -/
theorem insert_if_absent_idempotent_witness :
    storeLookup "E2" ([] : Store) = none ∧
    parseQuakeTs (stripUTC "2025-04-25 12:00:00 UTC") =
      some ⟨2025, 4, 25, 12, 0, 0⟩ ∧
    (save_quake_to_dynamodb
      (save_quake_to_dynamodb [] "N1" "E2" ratFiveAndHalf
        "2025-04-25 12:00:00 UTC" 10 16 96 "Alerted").store
      "N2" "E2" ratFiveAndHalf "2025-04-25 12:05:00" 12 17 96 "Alerted").ok =
      false ∧
    storeLookup "E2"
      (save_quake_to_dynamodb
        (save_quake_to_dynamodb [] "N1" "E2" ratFiveAndHalf
          "2025-04-25 12:00:00 UTC" 10 16 96 "Alerted").store
        "N2" "E2" ratFiveAndHalf "2025-04-25 12:05:00" 12 17 96
        "Alerted").store =
      some (mkEventRecord "E2" ratFiveAndHalf "2025-04-25 12:00:00 UTC"
        ⟨2025, 4, 25, 12, 0, 0⟩ 10 16 96 "Alerted" "N1") := by
  have h := insert_if_absent_idempotent [] "N1" "N2" "E2" ratFiveAndHalf
    "2025-04-25 12:00:00 UTC" 10 16 96 "Alerted" ratFiveAndHalf
    "2025-04-25 12:05:00" 12 17 96 "Alerted" ⟨2025, 4, 25, 12, 0, 0⟩
    (by decide) (by decide)
  exact ⟨by decide, by decide, h.2.1, h.2.2.2.1⟩

/-- A feed-entry title that names neither configured keyword. -/
def c3Title : String := "Earthquake in Thailand"

/-- C3 is false as stated: a magnitude-2.5 quake with coordinates inside the
`earthquake_bot.py` bounding box but a title without the configured keywords
is classified `RecordOnly` by the code, while the claimed reference (region
of interest = bounding box OR title keywords) classifies it `Alert`. -/
theorem c3_counterexample :
    is_in_myanmar 20 96 = true ∧
    fetchEntryDecision ratTwoAndHalf c3Title = Decision.RecordOnly ∧
    classifyClaimRef ratTwoAndHalf 20 96 c3Title = Decision.Alert ∧
    fetchEntryDecision ratTwoAndHalf c3Title ≠
      classifyClaimRef ratTwoAndHalf 20 96 c3Title := by
  decide

/-- C3 (amended): the classification decision equals the ordered rules with
the region-of-interest test being the title keyword match alone — the
coordinates/bounding box are never consulted by the live classifier. -/
theorem classification_matches_title_only_rules (mag : ℚ) (title : String) :
    fetchEntryDecision mag title = classifyAmendedRef mag title := rfl

/-- C4: a quake whose origin-timestamp string parses under no accepted
format is rejected: the save logs an error and returns failure, the store is
unchanged, and the monitor loop neither marks it saved nor invokes the alert
dispatcher for it. -/
theorem unparseable_timestamp_rejected (st : Store) (f : Bool)
    (item : QuakeItem)
    (h : parseQuakeTs (stripUTC item.q.date) = none) :
    (save_quake_to_dynamodb st item.now item.q.id item.q.mag item.q.date
      item.q.depth item.q.lat item.q.lon "Alerted").ok = false ∧
    (save_quake_to_dynamodb st item.now item.q.id item.q.mag item.q.date
      item.q.depth item.q.lat item.q.lon "Alerted").parseErrorLogged = true ∧
    (save_quake_to_dynamodb st item.now item.q.id item.q.mag item.q.date
      item.q.depth item.q.lat item.q.lon "Alerted").store = st ∧
    (monitorStep st f item).saved = false ∧
    (monitorStep st f item).dispatch = none := by
  have hs : save_quake_to_dynamodb st item.now item.q.id item.q.mag
      item.q.date item.q.depth item.q.lat item.q.lon "Alerted" =
      { store := st, ok := false, parseErrorLogged := true,
        alreadyExistsWarned := false } := by
    unfold save_quake_to_dynamodb
    rw [h]
  refine ⟨by rw [hs], by rw [hs], by rw [hs], ?_, ?_⟩
  · unfold monitorStep
    rw [hs]
    simp
  · unfold monitorStep
    rw [hs]
    simp

/-- The external-effect environment in which every channel succeeds. -/
def envAllOk : DispatchEnv :=
  { renderOk := true, fbCreds := some ("111", "tok"),
    fbNet := .httpId "111_222", tgOk := true,
    nearest := some ⟨"မန္တလေး", 12⟩ }

/-- A quake whose origin-time string is in no accepted format. -/
def c4Quake : Quake :=
  { id := "E4", lat := 16, lon := 96, mag := ratFiveAndHalf,
    depth := 10, date := "April 25, 2025", link := "L" }

/-- The monitor-loop item for `c4Quake`. -/
def c4Item : QuakeItem := { q := c4Quake, now := "N", env := envAllOk }

/-- Witness for C4 at a concrete unparseable timestamp. -/
theorem unparseable_timestamp_rejected_witness :
    parseQuakeTs (stripUTC c4Item.q.date) = none ∧
    ((save_quake_to_dynamodb [] c4Item.now c4Item.q.id c4Item.q.mag
        c4Item.q.date c4Item.q.depth c4Item.q.lat c4Item.q.lon "Alerted").ok =
      false ∧
    (save_quake_to_dynamodb [] c4Item.now c4Item.q.id c4Item.q.mag
      c4Item.q.date c4Item.q.depth c4Item.q.lat c4Item.q.lon
      "Alerted").parseErrorLogged = true ∧
    (save_quake_to_dynamodb [] c4Item.now c4Item.q.id c4Item.q.mag
      c4Item.q.date c4Item.q.depth c4Item.q.lat c4Item.q.lon
      "Alerted").store = [] ∧
    (monitorStep [] false c4Item).saved = false ∧
    (monitorStep [] false c4Item).dispatch = none) :=
  ⟨by decide, unparseable_timestamp_rejected [] false c4Item (by decide)⟩

/-- The effect environment of the C5 counterexample: the render fails, every
channel would succeed. -/
def c5Env : DispatchEnv :=
  { renderOk := false, fbCreds := some ("111", "tok"),
    fbNet := .httpId "111_222", tgOk := true,
    nearest := some ⟨"ရန်ကုန်", 10⟩ }

/-- The quake of the C5 counterexample. -/
def c5Quake : Quake :=
  { id := "E5", lat := 20, lon := 96, mag := ratFourAndHalf,
    depth := 10, date := "2025-04-25 12:00:00 UTC", link := "L" }

/-- C5 is false as stated: when the render fails but a stale
`quake_map.png` from an earlier dispatch still exists, `send_alert` only
checks that the file exists and proceeds to post on both channels with the
stale image — dispatch does not abort. -/
theorem c5_counterexample :
    c5Env.renderOk = false ∧
    (send_alert c5Quake c5Env true).fbAttempted = true ∧
    (send_alert c5Quake c5Env true).tgAttempted = true ∧
    (send_alert c5Quake c5Env true).mapMissingLogged = false := by
  decide

/-- C5 (amended): dispatch aborts before any channel post exactly when no
image file exists at the fixed path after the render attempt — that is, when
the render failed and no file from an earlier dispatch remains.  In that
case the miss is logged, no caption is built for either channel, and the
quake's record — written with status `Alerted` before dispatch — stays in
the store untouched, so any later re-processing of the same id fails the
conditional insert and never dispatches again. -/
theorem no_image_file_aborts_dispatch (q : Quake) (env : DispatchEnv)
    (st : Store) (rec : EventRecord)
    (hrender : env.renderOk = false)
    (hst : storeLookup q.id st = some rec) :
    (send_alert q env false).fbAttempted = false ∧
    (send_alert q env false).tgAttempted = false ∧
    (send_alert q env false).fbCaption = none ∧
    (send_alert q env false).tgCaption = none ∧
    (send_alert q env false).mapMissingLogged = true ∧
    (∀ f2 item2, item2.q.id = q.id →
      (monitorStep st f2 item2).saved = false ∧
      (monitorStep st f2 item2).dispatch = none ∧
      (monitorStep st f2 item2).store = st) := by
  have hd : send_alert q env false =
      dispatchStopped (convert_utc_to_myanmar q.date) false true false none
        none false false := by
    unfold send_alert
    rw [hrender]
    rfl
  refine ⟨by rw [hd]; rfl, by rw [hd]; rfl, by rw [hd]; rfl,
    by rw [hd]; rfl, by rw [hd]; rfl, ?_⟩
  intro f2 item2 hid
  have hpres : (storeLookup item2.q.id st).isSome = true := by
    rw [hid, hst]
    rfl
  have hok := save_present_not_ok st item2.now item2.q.id item2.q.mag
    item2.q.date item2.q.depth item2.q.lat item2.q.lon "Alerted" hpres
  refine ⟨?_, ?_, ?_⟩
  · rw [monitorStep_saved_ok]
    exact hok
  · simp [monitorStep, hok]
  · rw [monitorStep_store]
    exact save_not_ok_store _ _ _ _ _ _ _ _ _ hok

/-- The store holding the already-written `Alerted` record of `c5Quake`. -/
def c5Record : EventRecord :=
  mkEventRecord "E5" ratFourAndHalf "2025-04-25 12:00:00 UTC"
    ⟨2025, 4, 25, 12, 0, 0⟩ 10 20 96 "Alerted" "N"

/-- Witness for the amended C5 at a concrete input. -/
theorem no_image_file_aborts_dispatch_witness :
    c5Env.renderOk = false ∧
    storeLookup "E5" [("E5", c5Record)] = some c5Record ∧
    (send_alert c5Quake c5Env false).fbAttempted = false ∧
    (send_alert c5Quake c5Env false).tgAttempted = false ∧
    (send_alert c5Quake c5Env false).mapMissingLogged = true := by
  have h := no_image_file_aborts_dispatch c5Quake c5Env [("E5", c5Record)]
    c5Record (by decide) (by decide)
  exact ⟨by decide, by decide, h.1, h.2.1, h.2.2.2.2.1⟩

/-- C6: when the Facebook post obtains no page/post reference, `send_alert`
logs the failure and returns without attempting the Telegram post; dispatch
is a total function (the code catches the channel exceptions at the same
boundaries), and the cycle's heartbeat write is unconditional. -/
theorem fb_failure_isolated (q : Quake) (env : DispatchEnv) (fileBefore : Bool)
    (hfile : (env.renderOk || fileBefore) = true)
    (hfb : fbRefMissing (post_image_to_facebook env.fbCreds
      (env.renderOk || fileBefore) env.fbNet) = true) :
    (send_alert q env fileBefore).fbAttempted = true ∧
    (send_alert q env fileBefore).fbFailLogged = true ∧
    (send_alert q env fileBefore).tgAttempted = false ∧
    (send_alert q env fileBefore).tgCaption = none ∧
    (send_alert q env fileBefore).tgSent = false ∧
    (∀ st f items, (runCycle st f items).heartbeatWritten = true) := by
  have hd : send_alert q env fileBefore =
      dispatchStopped (convert_utc_to_myanmar q.date) true false true
        (some (build_facebook_caption (if 4 ≤ q.mag then "🚨" else "⚠️")
          q.mag
          (match env.nearest with
            | some n => n.city_mm
            | none => "မသိရ")
          (match env.nearest with
            | some n => burmese_number (toString n.distance)
            | none => "?")
          (convert_utc_to_myanmar q.date) q.depth q.lat q.lon q.link))
        none true false := by
    unfold send_alert
    rw [hfile] at hfb ⊢
    simp only [hfb]
    rfl
  refine ⟨by rw [hd]; rfl, by rw [hd]; rfl, by rw [hd]; rfl,
    by rw [hd]; rfl, by rw [hd]; rfl, fun st f items => rfl⟩

/-- The effect environment of the C6 witness: render succeeds, the Facebook
API returns an error body. -/
def c6Env : DispatchEnv :=
  { renderOk := true, fbCreds := some ("111", "tok"),
    fbNet := .httpError, tgOk := true,
    nearest := some ⟨"ပဲခူး", 5⟩ }

/-- Witness for C6 at a concrete input. -/
theorem fb_failure_isolated_witness :
    (c6Env.renderOk || false) = true ∧
    fbRefMissing (post_image_to_facebook c6Env.fbCreds
      (c6Env.renderOk || false) c6Env.fbNet) = true ∧
    (send_alert c5Quake c6Env false).tgAttempted = false ∧
    (runCycle [] false []).heartbeatWritten = true := by
  have h := fb_failure_isolated c5Quake c6Env false (by decide) (by decide)
  exact ⟨by decide, by decide, h.2.2.1, h.2.2.2.2.2 [] false []⟩

/-- The cycle schedule of the C7 counterexample: the first cycle raises, one
more cycle is scheduled after it. -/
def c7Cycles : List CycleOutcome := [.raised "boom", .ok]

/-- C7 is false as stated: the escaping exception is caught at the top level
and the durable error artifact is written, but the loop does not continue —
only 1 of the 2 scheduled cycles executes, because the `try/except` wraps
`run_until_complete(monitor_loop())` and nothing re-enters the loop. -/
theorem c7_counterexample :
    pyMain c7Cycles =
      { cyclesExecuted := 1, exceptionCaughtAtTopLevel := true,
        errorArtifactWritten := true, loopClosed := true } ∧
    c7Cycles.length = 2 ∧
    (pyMain c7Cycles).cyclesExecuted ≠ c7Cycles.length := by
  decide

theorem runUntilException_append_ok (pre : List CycleOutcome) (m : String)
    (post : List CycleOutcome) (hpre : ∀ c ∈ pre, c = CycleOutcome.ok) :
    runUntilException (pre ++ CycleOutcome.raised m :: post) =
      (pre.length + 1, some m) := by
  induction pre with
  | nil => simp [runUntilException]
  | cons c rest ih =>
    have hc : c = CycleOutcome.ok := hpre c (by simp)
    subst hc
    have hrest : ∀ c ∈ rest, c = CycleOutcome.ok := by
      intro c hcm
      exact hpre c (by simp [hcm])
    rw [List.cons_append]
    unfold runUntilException
    rw [ih hrest]
    simp

/-- C7 (amended): an unhandled exception escaping a poll cycle is caught at
the top level and written to the durable `latest_error.log`, and then the
process ends — the loop is not resumed, so the cycles scheduled after the
failing one never execute. -/
theorem top_level_catch_then_exit (pre : List CycleOutcome) (m : String)
    (post : List CycleOutcome)
    (hpre : ∀ c ∈ pre, c = CycleOutcome.ok) :
    pyMain (pre ++ CycleOutcome.raised m :: post) =
      { cyclesExecuted := pre.length + 1, exceptionCaughtAtTopLevel := true,
        errorArtifactWritten := true, loopClosed := true } := by
  unfold pyMain
  rw [runUntilException_append_ok pre m post hpre]

/-- Witness for the amended C7 at a concrete schedule. -/
theorem top_level_catch_then_exit_witness :
    (∀ c ∈ [CycleOutcome.ok], c = CycleOutcome.ok) ∧
    pyMain ([CycleOutcome.ok] ++ CycleOutcome.raised "boom" :: [.ok, .ok]) =
      { cyclesExecuted := 2, exceptionCaughtAtTopLevel := true,
        errorArtifactWritten := true, loopClosed := true } :=
  ⟨by decide,
    top_level_catch_then_exit [CycleOutcome.ok] "boom" [.ok, .ok] (by decide)⟩

/-- The epoch second at which the heartbeat of the C8 failing input was
written. -/
def c8WriteEpoch : Int := 1760000000

/-- C8 is a code bug: `write_status` records an offset-aware ISO timestamp,
`watchdog.py` parses it back as aware but subtracts it from the naive
`datetime.utcnow()`, which raises `TypeError` — so on the heartbeat the
pipeline itself writes, the watchdog crashes instead of reporting: at 120 s
staleness it does not report unhealthy, and at 30 s it does not report
healthy.  Only the missing-file branch, which never reaches the
subtraction, behaves as claimed. -/
theorem watchdog_typeerror_on_own_heartbeat :
    check_status (some (write_status "healthy" c8WriteEpoch))
      (c8WriteEpoch + 120) = Except.error () ∧
    check_status (some (write_status "healthy" c8WriteEpoch))
      (c8WriteEpoch + 30) = Except.error () ∧
    check_status none (c8WriteEpoch + 120) =
      Except.ok CheckOutcome.missingFile :=
  ⟨rfl, rfl, rfl⟩

/-- An ERROR-level record that contains neither configured noisy
substring. -/
def c9Entry : String := "2025-06-01 12:00:00 - ERROR - Facebook API Error"

/-- C9 is a code bug: the suppression guard of `DiscordLogHandler.emit` is a
two-element *tuple* of the two substring tests, and a nonempty tuple is
always truthy, so every record is suppressed — this ERROR record contains
neither noisy substring, the spec's substring rule would forward it, yet the
code drops it; indeed the code drops every record whatsoever. -/
theorem discord_emit_suppresses_everything :
    discordEmit ERROR_LEVEL c9Entry = EmitAction.suppressed ∧
    specNoisyDrop c9Entry = false ∧
    (∀ lvl entry, discordEmit lvl entry = EmitAction.suppressed) := by
  refine ⟨by decide, by decide, fun lvl entry => rfl⟩

/-- In every branch of `send_alert`, the converted Myanmar-time string — the
value also interpolated into both channel captions — is
`convert_utc_to_myanmar` of the quake's origin-time string. -/
theorem send_alert_mm_time (q : Quake) (env : DispatchEnv) (f : Bool) :
    (send_alert q env f).mm_time = convert_utc_to_myanmar q.date ∧
    (∀ c, (send_alert q env f).fbCaption = some c →
      c.mm_time = convert_utc_to_myanmar q.date) ∧
    (∀ c, (send_alert q env f).tgCaption = some c →
      c.mm_time = convert_utc_to_myanmar q.date) := by
  unfold send_alert dispatchStopped build_facebook_caption
  refine ⟨?_, ?_, ?_⟩
  · simp only []
    repeat' split
    all_goals rfl
  · simp only []
    intro c hc
    repeat' split at hc
    all_goals simp only [Option.some.injEq] at hc
    all_goals first
      | (subst hc; rfl)
      | simp_all
  · simp only []
    intro c hc
    repeat' split at hc
    all_goals simp only [Option.some.injEq] at hc
    all_goals first
      | (subst hc; rfl)
      | simp_all

/-- C10: the store's parser and the caption's local-time converter accept
different format sets — for a quake whose origin time uses the
`"T"`-separated form (accepted by `save_quake_to_dynamodb`'s second format
but by no format of `convert_utc_to_myanmar`), the record is persisted with
status `Alerted` and the dispatcher is invoked, while the caption time field
handed to both channels is `None` (returned without raising). -/
theorem t_form_persisted_dispatched_caption_none (st : Store) (f : Bool)
    (item : QuakeItem) (dt : PyDateTimeNaive)
    (habs : storeLookup item.q.id st = none)
    (hspace : strptimeYmdHms ' ' (stripUTC item.q.date) = none)
    (hT : strptimeYmdHms 'T' (stripUTC item.q.date) = some dt) :
    parseQuakeTs (stripUTC item.q.date) = some dt ∧
    (monitorStep st f item).saved = true ∧
    (storeLookup item.q.id (monitorStep st f item).store).map
      (fun r => r.status) = some "Alerted" ∧
    (monitorStep st f item).dispatch = some (send_alert item.q item.env f) ∧
    convert_utc_to_myanmar item.q.date = none ∧
    (send_alert item.q item.env f).mm_time = none ∧
    (∀ c, (send_alert item.q item.env f).fbCaption = some c →
      c.mm_time = none) ∧
    (∀ c, (send_alert item.q item.env f).tgCaption = some c →
      c.mm_time = none) := by
  have hparse : parseQuakeTs (stripUTC item.q.date) = some dt := by
    unfold parseQuakeTs
    rw [hspace, hT]
  have hsave : save_quake_to_dynamodb st item.now item.q.id item.q.mag
      item.q.date item.q.depth item.q.lat item.q.lon "Alerted" =
      { store := (item.q.id,
          mkEventRecord item.q.id item.q.mag item.q.date dt item.q.depth
            item.q.lat item.q.lon "Alerted" item.now) :: st,
        ok := true, parseErrorLogged := false,
        alreadyExistsWarned := false } := by
    unfold save_quake_to_dynamodb
    rw [hparse, habs]
  have hconv : convert_utc_to_myanmar item.q.date = none := by
    unfold convert_utc_to_myanmar
    rw [hspace]
  have hmm := send_alert_mm_time item.q item.env f
  refine ⟨hparse, ?_, ?_, ?_, hconv, ?_, ?_, ?_⟩
  · rw [monitorStep_saved_ok, hsave]
  · unfold monitorStep
    rw [hsave]
    simp [storeLookup, mkEventRecord]
  · unfold monitorStep
    rw [hsave]
    simp
  · rw [hmm.1, hconv]
  · intro c hc
    rw [hmm.2.1 c hc, hconv]
  · intro c hc
    rw [hmm.2.2 c hc, hconv]

/-- The quake of the C10 witness: `"T"`-separated origin time. -/
def c10Quake : Quake :=
  { id := "E10", lat := 17, lon := 95, mag := ratFourAndHalf,
    depth := 20, date := "2025-04-26T08:30:00", link := "L" }

/-- The monitor-loop item for `c10Quake`, with every channel succeeding. -/
def c10Item : QuakeItem := { q := c10Quake, now := "N10", env := envAllOk }

/-- Witness for C10 at a concrete input. -/
theorem t_form_persisted_dispatched_caption_none_witness :
    storeLookup "E10" ([] : Store) = none ∧
    strptimeYmdHms ' ' (stripUTC c10Item.q.date) = none ∧
    strptimeYmdHms 'T' (stripUTC c10Item.q.date) =
      some ⟨2025, 4, 26, 8, 30, 0⟩ ∧
    ((monitorStep [] false c10Item).saved = true ∧
      (send_alert c10Item.q c10Item.env false).mm_time = none) := by
  have h := t_form_persisted_dispatched_caption_none [] false c10Item
    ⟨2025, 4, 26, 8, 30, 0⟩ (by decide) (by decide) (by decide)
  exact ⟨by decide, by decide, by decide, h.2.1, h.2.2.2.2.2.1⟩

end QuakeBot
